import Mathlib

/-!
Shallow embedding of the interview client (`public/src/interview.js`):
the transcript assembler, usage accountant, termination coordinator,
recording coordinator and transport negotiator, together with proofs of
the spec's claims about them.  Token counters are embedded as integers
(JS numbers holding token counts), wall-clock timestamps as natural
numbers of milliseconds, and accumulated speech seconds as rationals.
Asynchronous side effects (closing channels, uploads, logging) are made
visible as explicit effect traces returned next to the updated state.
-/

/-- JS `a || b` over two optional strings, where `undefined`, `null` and
`""` are all falsy: yields the first truthy value, or `""`. -/
def jsOrStr (a b : Option String) : String :=
  let av := a.getD ""
  if av == "" then b.getD "" else av

/-- JS truthiness of a variable holding `null` or a numeric timestamp:
`null` and `0` are falsy. -/
def jsTruthyNat (o : Option Nat) : Bool :=
  !((o.getD 0) == 0)

/-- JS `String.prototype.toUpperCase()` over ASCII role names. -/
def jsToUpper (s : String) : String :=
  String.mk (s.data.map Char.toUpper)

/-- JS `String.prototype.trim()`: strips whitespace from both ends. -/
def jsTrim (s : String) : String :=
  String.mk (((s.data.dropWhile Char.isWhitespace).reverse.dropWhile
    Char.isWhitespace).reverse)

/-- One chat element under `#chat-container`: a `.message` div with an
optional `data-item-id`, an optional `data-role`, an optional
`.role-label` child, an optional `.message-content` child, direct text
(system messages set `textContent` on the div itself) and the `pending`
css class. -/
structure Msg where
  itemId : Option String
  roleAttr : Option String
  labelDiv : Option String
  contentDiv : Option String
  rawText : String
  pending : Bool
deriving DecidableEq, Repr

/-- Embedding of `Node.textContent` of a message div: the concatenated text of all of
its descendants. -/
def Msg.textContent (m : Msg) : String :=
  m.labelDiv.getD "" ++ m.contentDiv.getD "" ++ m.rawText

/-- Chat UI state: the ordered `.message` elements of `#chat-container`
plus the `messageTextCache` map (`messageElements` is represented by the
`itemId` fields of the listed messages). -/
structure ChatState where
  messages : List Msg
  cache : List (String × String)
deriving DecidableEq, Repr

def emptyChat : ChatState := { messages := [], cache := [] }

/-- Embedding of `createMessageElement(role)`: builds a message div with a role label
and a content div; a user message starts with the literal placeholder
text `Transcribing...` and no `pending` class yet. -/
def createMessageElement (role : String) : Msg :=
  { itemId := none
    roleAttr := some role
    labelDiv := some (jsToUpper role)
    contentDiv := some (if role == "user" then "Transcribing..." else "")
    rawText := ""
    pending := false }

/-- Embedding of `messageTextCache.get` over the association-list embedding of the map. -/
def lookupCache : List (String × String) → String → Option String
  | [], _ => none
  | (k, v) :: rest, key => if k == key then some v else lookupCache rest key

/-- Embedding of `messageTextCache.set`: replaces the value at an existing key in
place, otherwise appends (JS `Map` insertion order). -/
def cacheSet : List (String × String) → String → String → List (String × String)
  | [], key, val => [(key, val)]
  | (k, v) :: rest, key, val =>
    if k == key then (key, val) :: rest else (k, v) :: cacheSet rest key val

/-- Mutation of the chat element at a given position (the DOM node a
handler holds a reference to). -/
def listModify : List Msg → Nat → (Msg → Msg) → List Msg
  | [], _, _ => []
  | m :: ms, 0, f => f m :: ms
  | m :: ms, n + 1, f => m :: listModify ms n f

/-- Embedding of `messageElements.get(itemId)`: position of the message registered
under an item identifier, if any. -/
def findMsgIdx (msgs : List Msg) (id : String) : Option Nat :=
  msgs.findIdx? (fun m => m.itemId == some id)

/-- Embedding of `getMessageElement(itemId, role)`: reuses the element registered for
`itemId`, otherwise creates one and registers it (a falsy `itemId` makes
an unregistered element). Returns the updated chat and the element's
position. -/
def getMessageElement (st : ChatState) (itemId : Option String) (role : String) :
    ChatState × Nat :=
  match itemId with
  | none =>
    ({ st with messages := st.messages ++ [createMessageElement role] }, st.messages.length)
  | some id =>
    match findMsgIdx st.messages id with
    | some idx => (st, idx)
    | none =>
      let m := { createMessageElement role with itemId := some id }
      ({ st with messages := st.messages ++ [m] }, st.messages.length)

/-- Embedding of `upsertMessage(itemId, role, text)`: replaces the displayed and
cached text only when the new text is non-empty and at least as long as
the cached text (or nothing non-empty is cached); an empty upsert on an
uncached user item shows the `Transcribing...` placeholder and marks the
element pending. -/
def upsertMessage (st : ChatState) (itemId role text : String) : ChatState :=
  if itemId == "" then st
  else
    let p := getMessageElement st (some itemId) role
    let st1 := p.1
    let idx := p.2
    let existing := (lookupCache st1.cache itemId).getD ""
    if !(text == "") then
      let st2 :=
        if existing.length ≤ text.length || existing.length == 0 then
          { st1 with
            messages := listModify st1.messages idx (fun m => { m with contentDiv := some text }),
            cache := cacheSet st1.cache itemId text }
        else st1
      { st2 with messages := listModify st2.messages idx (fun m => { m with pending := false }) }
    else
      if existing.length == 0 && role == "user" then
        let setPending := fun m => { m with contentDiv := some "Transcribing...", pending := true }
        { st1 with messages := listModify st1.messages idx setPending }
      else st1

/-- Embedding of `appendToMessage(itemId, role, delta)`: concatenates a delta onto the
cached text and clears the pending state. -/
def appendToMessage (st : ChatState) (itemId role delta : String) : ChatState :=
  if itemId == "" || delta == "" then st
  else
    let p := getMessageElement st (some itemId) role
    let existing := (lookupCache p.1.cache itemId).getD ""
    let updated := existing ++ delta
    let setContent := fun m => { m with contentDiv := some updated, pending := false }
    { p.1 with
      messages := listModify p.1.messages p.2 setContent,
      cache := cacheSet p.1.cache itemId updated }

/-- A message div appended by `addSystemMessage(text)`: no role
attribute, no label, no content div, the text set directly on the div. -/
def systemMsg (text : String) : Msg :=
  { itemId := none, roleAttr := none, labelDiv := none, contentDiv := none,
    rawText := text, pending := false }

def addSystemMessageChat (st : ChatState) (text : String) : ChatState :=
  { st with messages := st.messages ++ [systemMsg text] }

/-- The line `buildTranscriptFromDom` derives from one message:
`msg.dataset.role || 'system'` for the role, then
`msg.querySelector('.message-content')?.textContent?.trim() || msg.textContent.trim()`
for the content, skipping the message when the resolved content is
empty. -/
def transcriptLine (m : Msg) : Option String :=
  let role := m.roleAttr.getD "system"
  let content :=
    match m.contentDiv with
    | some c => if jsTrim c == "" then jsTrim m.textContent else jsTrim c
    | none => jsTrim m.textContent
  if content == "" then none else some (jsToUpper role ++ ": " ++ content)

def transcriptLines (msgs : List Msg) : List String :=
  msgs.filterMap transcriptLine

/-- Embedding of `buildTranscriptFromDom()`: the per-message lines joined with
newlines. -/
def buildTranscriptFromDom (msgs : List Msg) : String :=
  String.intercalate "\n" (transcriptLines msgs)

/-- The placeholder element a never-resolved user turn is left in. -/
def pendingUserMsg (id : String) : Msg :=
  { itemId := some id, roleAttr := some "user", labelDiv := some "USER",
    contentDiv := some "Transcribing...", rawText := "", pending := true }

/-- Chat state holding exactly one unresolved user turn. -/
def placeholderChat : ChatState := upsertMessage emptyChat "u1" "user" ""

-- ### Helper lemmas

theorem lookupCache_cacheSet_self (c : List (String × String)) (k v : String) :
    lookupCache (cacheSet c k v) k = some v := by
  induction c with
  | nil => simp [cacheSet, lookupCache]
  | cons p rest ih =>
    obtain ⟨k1, v1⟩ := p
    by_cases h : k1 = k
    · simp [cacheSet, lookupCache, h]
    · simp [cacheSet, lookupCache, h, ih]

theorem lookupCache_cacheSet_other (c : List (String × String)) (k v other : String)
    (h : other ≠ k) :
    lookupCache (cacheSet c k v) other = lookupCache c other := by
  have h2 : k ≠ other := Ne.symm h
  induction c with
  | nil => simp [cacheSet, lookupCache, h2]
  | cons p rest ih =>
    obtain ⟨k1, v1⟩ := p
    by_cases h1 : k1 = k
    · subst h1
      simp [cacheSet, lookupCache, h2]
    · by_cases h3 : k1 = other <;> simp [cacheSet, lookupCache, h1, h3, ih, h]

theorem getMessageElement_cache (st : ChatState) (itemId : Option String) (role : String) :
    (getMessageElement st itemId role).1.cache = st.cache := by
  cases itemId with
  | none => rfl
  | some id =>
    simp only [getMessageElement]
    cases h : findMsgIdx st.messages id <;> simp [h]

theorem listModify_append_length (l : List Msg) (m : Msg) (f : Msg → Msg) :
    listModify (l ++ [m]) l.length f = l ++ [f m] := by
  induction l with
  | nil => rfl
  | cons a rest ih => simp [listModify, ih]

-- ### C3

/-- The cache side of `upsertMessage`: the map is rewritten exactly when
the code's replacement guard fires. -/
theorem upsertMessage_cache (st : ChatState) (itemId role text : String)
    (h : itemId ≠ "") :
    (upsertMessage st itemId role text).cache =
      if text ≠ "" ∧ (((lookupCache st.cache itemId).getD "").length ≤ text.length ∨
          ((lookupCache st.cache itemId).getD "") = "")
      then cacheSet st.cache itemId text else st.cache := by
  have hid : (itemId == "") = false := by simp [h]
  have hc := getMessageElement_cache st (some itemId) role
  unfold upsertMessage
  rw [hid]
  simp only [Bool.false_eq_true, if_false, hc]
  by_cases ht : text = ""
  · have htb : (text == "") = true := by simp [ht]
    rw [htb]
    simp only [Bool.not_true, Bool.false_eq_true, if_false]
    have hrhs : ¬ (text ≠ "" ∧ (((lookupCache st.cache itemId).getD "").length ≤ text.length ∨
        ((lookupCache st.cache itemId).getD "") = "")) := by simp [ht]
    rw [if_neg hrhs]
    split <;> simp [hc]
  · have htb : (text == "") = false := by simp [ht]
    rw [htb]
    simp only [Bool.not_false, if_true]
    by_cases hrep : ((lookupCache st.cache itemId).getD "").length ≤ text.length ∨
        ((lookupCache st.cache itemId).getD "") = ""
    · have hcb : (((lookupCache st.cache itemId).getD "").length ≤ text.length ||
          ((lookupCache st.cache itemId).getD "").length == 0) = true := by
        rcases hrep with h1 | h1 <;> simp [h1]
      have hx : text ≠ "" ∧ (((lookupCache st.cache itemId).getD "").length ≤ text.length ∨
          ((lookupCache st.cache itemId).getD "") = "") := ⟨ht, hrep⟩
      rw [hcb, if_pos rfl, if_pos hx]
    · have h0 : ((lookupCache st.cache itemId).getD "").length ≠ 0 := by
        intro hz
        push_neg at hrep
        apply hrep.2
        have hd : ((lookupCache st.cache itemId).getD "").data = [] :=
          List.length_eq_zero.mp hz
        exact String.ext hd
      have hcb : (((lookupCache st.cache itemId).getD "").length ≤ text.length ||
          ((lookupCache st.cache itemId).getD "").length == 0) = false := by
        push_neg at hrep
        have h1 : ¬ (((lookupCache st.cache itemId).getD "").length ≤ text.length) :=
          Nat.not_le.mpr hrep.1
        simp [h1, h0]
      rw [hcb]
      simp only [Bool.false_eq_true, if_false, hc]
      rw [if_neg (fun hcl => hrep hcl.2)]

/-- C3: for every item identifier and every call of the transcript
upsert, the cached text for that identifier is replaced by the new text
exactly when the new text is non-empty and either at least as long as
the cached text or nothing is cached yet; other identifiers are never
touched. -/
theorem upsertMessage_cache_replacement_iff (st : ChatState) (itemId role text : String)
    (h : itemId ≠ "") :
    (lookupCache (upsertMessage st itemId role text).cache itemId =
      if text ≠ "" ∧ (((lookupCache st.cache itemId).getD "").length ≤ text.length ∨
                      lookupCache st.cache itemId = none)
      then some text else lookupCache st.cache itemId)
    ∧ ∀ other, other ≠ itemId →
        lookupCache (upsertMessage st itemId role text).cache other =
          lookupCache st.cache other := by
  have hcache := upsertMessage_cache st itemId role text h
  have hcond : (text ≠ "" ∧ (((lookupCache st.cache itemId).getD "").length ≤ text.length ∨
        ((lookupCache st.cache itemId).getD "") = "")) ↔
      (text ≠ "" ∧ (((lookupCache st.cache itemId).getD "").length ≤ text.length ∨
        lookupCache st.cache itemId = none)) := by
    constructor
    · rintro ⟨h1, h2 | h2⟩
      · exact ⟨h1, Or.inl h2⟩
      · exact ⟨h1, Or.inl (by rw [h2]; exact Nat.zero_le _)⟩
    · rintro ⟨h1, h2 | h2⟩
      · exact ⟨h1, Or.inl h2⟩
      · exact ⟨h1, Or.inr (by rw [h2]; rfl)⟩
  constructor
  · rw [hcache]
    by_cases hcl : text ≠ "" ∧ (((lookupCache st.cache itemId).getD "").length ≤ text.length ∨
        lookupCache st.cache itemId = none)
    · rw [if_pos (hcond.mpr hcl), if_pos hcl]
      exact lookupCache_cacheSet_self _ _ _
    · rw [if_neg (fun hx => hcl (hcond.mp hx)), if_neg hcl]
  · intro other hother
    rw [hcache]
    split
    · exact lookupCache_cacheSet_other _ _ _ _ hother
    · rfl

/-- Witness for C3 at a concrete state: a shorter non-empty upsert on a
cached item leaves the cache unchanged. -/
theorem upsertMessage_cache_replacement_iff_witness :
    ("a1" : String) ≠ "" ∧
    (lookupCache (upsertMessage { messages := [], cache := [("a1", "hello there")] }
        "a1" "assistant" "hi").cache "a1" =
      if ("hi" : String) ≠ "" ∧
          (((lookupCache [("a1", "hello there")] "a1").getD "").length ≤ ("hi" : String).length ∨
            lookupCache [("a1", "hello there")] "a1" = none)
      then some "hi" else lookupCache [("a1", "hello there")] "a1")
    ∧ ∀ other, other ≠ "a1" →
        lookupCache (upsertMessage { messages := [], cache := [("a1", "hello there")] }
          "a1" "assistant" "hi").cache other =
          lookupCache [("a1", "hello there")] other := by
  refine ⟨by decide, ?_⟩
  exact upsertMessage_cache_replacement_iff
    { messages := [], cache := [("a1", "hello there")] } "a1" "assistant" "hi" (by decide)

-- ### C8

theorem transcriptLines_append (l1 l2 : List Msg) :
    transcriptLines (l1 ++ l2) = transcriptLines l1 ++ transcriptLines l2 := by
  simp [transcriptLines, List.filterMap_append]

theorem transcriptLine_pendingUserMsg (id : String) :
    transcriptLine (pendingUserMsg id) = some "USER: Transcribing..." := rfl

theorem transcriptLine_emptySystemMsg :
    transcriptLine (systemMsg "") = none := rfl

/-- Counterexample to C8 as stated: a user turn whose transcript never
arrived is left in the `Transcribing...` placeholder state, and the
export does NOT skip it — the exported transcript is the non-empty line
`USER: Transcribing...` instead of being empty. -/
theorem transcript_placeholder_counterexample :
    buildTranscriptFromDom placeholderChat.messages = "USER: Transcribing..." ∧
    buildTranscriptFromDom placeholderChat.messages ≠ "" := by
  constructor
  · rfl
  · decide

/-- C8 amended: the final transcript export concatenates turns in
creation order as `ROLE: text` lines and skips lines whose resolved
content is empty, but a user turn whose transcript never arrived holds
the literal non-empty placeholder text `Transcribing...` and is
therefore exported as a `USER: Transcribing...` line rather than
skipped. -/
theorem transcript_export_amended (st : ChatState) (id : String) (pre post : List Msg)
    (h1 : id ≠ "") (h2 : findMsgIdx st.messages id = none)
    (h3 : lookupCache st.cache id = none) :
    (upsertMessage st id "user" "").messages = st.messages ++ [pendingUserMsg id] ∧
    transcriptLines (pre ++ pendingUserMsg id :: post) =
      transcriptLines pre ++ "USER: Transcribing..." :: transcriptLines post ∧
    transcriptLines (pre ++ systemMsg "" :: post) = transcriptLines pre ++ transcriptLines post ∧
    buildTranscriptFromDom (pre ++ pendingUserMsg id :: post) =
      String.intercalate "\n"
        (transcriptLines pre ++ "USER: Transcribing..." :: transcriptLines post) := by
  have hid : (id == "") = false := by simp [h1]
  have hcons : ∀ (m : Msg) (l : List Msg),
      transcriptLines (m :: l) =
        (transcriptLine m).toList ++ transcriptLines l := by
    intro m l
    cases hm : transcriptLine m <;> simp [transcriptLines, hm]
  refine ⟨?_, ?_, ?_, ?_⟩
  · unfold upsertMessage
    rw [hid]
    simp only [Bool.false_eq_true, if_false, getMessageElement, h2, h3, Option.getD_none,
      String.length_empty, beq_self_eq_true, Bool.and_self, Bool.not_true, if_true,
      Nat.zero_le]
    rw [listModify_append_length]
    rfl
  · rw [transcriptLines_append, hcons, transcriptLine_pendingUserMsg]
    rfl
  · rw [transcriptLines_append, hcons, transcriptLine_emptySystemMsg]
    rfl
  · rw [buildTranscriptFromDom, transcriptLines_append, hcons, transcriptLine_pendingUserMsg]
    rfl

/-- Witness for C8's amended theorem: one unresolved user turn upserted
into the empty chat, exported between an assistant line and nothing. -/
theorem transcript_export_amended_witness :
    (("u1" : String) ≠ "" ∧ findMsgIdx emptyChat.messages "u1" = none ∧
      lookupCache emptyChat.cache "u1" = none) ∧
    ((upsertMessage emptyChat "u1" "user" "").messages =
        emptyChat.messages ++ [pendingUserMsg "u1"] ∧
      transcriptLines ([] ++ pendingUserMsg "u1" :: []) =
        transcriptLines [] ++ "USER: Transcribing..." :: transcriptLines [] ∧
      transcriptLines ([] ++ systemMsg "" :: []) = transcriptLines [] ++ transcriptLines [] ∧
      buildTranscriptFromDom ([] ++ pendingUserMsg "u1" :: []) =
        String.intercalate "\n"
          (transcriptLines [] ++ "USER: Transcribing..." :: transcriptLines [])) := by
  refine ⟨⟨by decide, by decide, by decide⟩, ?_⟩
  exact transcript_export_amended emptyChat "u1" [] [] (by decide) (by decide) (by decide)

-- ### Session state, usage accountant, termination & recording coordinators

/-- Response-side counters of the Usage Ledger (`tokenUsage.response`),
including the dedupe set of already-counted response identifiers. -/
structure RespUsage where
  textInput : Int
  audioInput : Int
  textOutput : Int
  audioOutput : Int
  cachedTextInput : Int
  cachedAudioInput : Int
  seenResponseIds : List String
deriving DecidableEq, Repr

/-- Transcription-side counters of the Usage Ledger
(`tokenUsage.transcription`). -/
structure TranscriptionUsage where
  totalTokens : Int
  audioTokens : Int
deriving DecidableEq, Repr

/-- Embedding of `usage.input_token_details.cached_tokens_details` of a terminal
response event; absent fields are `none`. -/
structure CachedTokensDetails where
  text_tokens : Option Int
  audio_tokens : Option Int
deriving DecidableEq, Repr

/-- Embedding of `usage.input_token_details` of a terminal response event. -/
structure InputTokenDetails where
  text_tokens : Option Int
  audio_tokens : Option Int
  cached_tokens : Option Int
  cached_tokens_details : Option CachedTokensDetails
deriving DecidableEq, Repr

/-- Embedding of `usage.output_token_details` of a terminal response event. -/
structure OutputTokenDetails where
  text_tokens : Option Int
  audio_tokens : Option Int
deriving DecidableEq, Repr

/-- Embedding of `event.response.usage` of a `response.done` event. -/
structure UsagePayload where
  input_token_details : Option InputTokenDetails
  output_token_details : Option OutputTokenDetails
deriving DecidableEq, Repr

/-- Embedding of `event.usage` of a transcription-completed or committed event:
`total_tokens` and `input_token_details.audio_tokens`. -/
structure TranscribeUsagePayload where
  total_tokens : Option Int
  input_audio_tokens : Option Int
deriving DecidableEq, Repr

/-- One entry of `event.response.output`. -/
structure OutputItem where
  type : String
  name : String
deriving DecidableEq, Repr

/-- A `MediaStream` handle: its audio and video track identifiers. -/
structure MediaStreamModel where
  audioTracks : List Nat
  videoTracks : List Nat
deriving DecidableEq, Repr

/-- A `MediaRecorder.state` value (only the states this client uses). -/
inductive RecorderState
  | recording
  | inactive
deriving DecidableEq, Repr

/-- Observable side effects of the client, emitted in program order. -/
inductive Effect
  | closeDataChannel
  | stopTracks
  | closePeerConnection
  | recorderStop
  | assembleBlob
  | uploadFetch (kind : String)
  | resolveStopPromise
  | stopStopwatch
  | logCostSummary
  | saveTranscript
  | analyzeRequest
  | addSystemMsg (text : String)
  | startRecorder
  | showErrorMsg (text : String)
deriving DecidableEq, Repr

/-- The client's module-level mutable state in `interview.js`. -/
structure ClientState where
  alreadyEnded : Bool
  pendingEndInterview : Bool
  outputAudioActive : Bool
  pendingEndTimeout : Option Nat
  isSessionActive : Bool
  hasSentGreeting : Bool
  liveIndicator : String
  startButtonDisabled : Bool
  stopButtonDisabled : Bool
  dataChannelOpen : Bool
  peerConnectionOpen : Bool
  userSpeaking : Bool
  speechStartTimestamp : Option Nat
  speechDurationSeconds : ℚ
  lastAssistantResponseId : Option String
  currentAssistantItemId : Option String
  currentUserItemId : Option String
  respUsage : RespUsage
  transcriptionUsage : TranscriptionUsage
  chat : ChatState
  cameraStream : Option MediaStreamModel
  candidateAudioStream : Option MediaStreamModel
  assistantAudioStream : Option MediaStreamModel
  audioContextExists : Bool
  combinedRecorder : Option RecorderState
  combinedChunks : List Nat
  combinedRecordingStoppedPromise : Bool
  pendingTranscriptSave : Bool
  interviewSessionId : String
  evtLog : List (Nat × String)
deriving DecidableEq, Repr

/-- The fixed fail-safe delay `handleEndInterviewSignal` passes to
`setTimeout`, in milliseconds. -/
def FAILSAFE_DELAY_MS : Nat := 5000

/-- Embedding of `uploadMedia(kind, blob)`: attempts the upload POST unless the
session identifier or the blob is missing (both falsy-guarded). -/
def uploadMedia (sessionId : String) (hasBlob : Bool) (kind : String) : List Effect :=
  if sessionId == "" || !hasBlob then [] else [Effect.uploadFetch kind]

/-- The recorder's `onstop` handler: when chunks were captured, they are
assembled into one blob and its upload is awaited; the stop promise is
resolved in the `finally` block, after the upload attempt. -/
def combinedOnStopTrace (chunks : List Nat) (sessionId : String) : List Effect :=
  if chunks.length > 0 then
    [Effect.assembleBlob] ++ uploadMedia sessionId true "combined" ++ [Effect.resolveStopPromise]
  else [Effect.resolveStopPromise]

/-- Embedding of `stopCombinedRecording()`: stops an active recorder and awaits the
stop promise (which resolves only after the onstop handler ran), then
clears the recorder and promise handles. -/
def stopCombinedRecording (st : ClientState) : ClientState × List Effect :=
  if st.combinedRecorder == some RecorderState.recording then
    let tr := [Effect.recorderStop] ++
      (if st.combinedRecordingStoppedPromise then
        combinedOnStopTrace st.combinedChunks st.interviewSessionId
       else [])
    let st1 :=
      if st.combinedRecordingStoppedPromise then { st with combinedChunks := [] } else st
    ({ st1 with combinedRecorder := none, combinedRecordingStoppedPromise := false }, tr)
  else
    ({ st with combinedRecorder := none, combinedRecordingStoppedPromise := false }, [])

/-- Embedding of `tryStartCombinedRecording()`: a no-op unless the camera, candidate
audio and assistant audio streams are all present and no recording is
active; mixes the audio tracks (the mixed destination always exposes one
audio track) and starts the recorder when the camera has a video track. -/
def tryStartCombinedRecording (st : ClientState) : ClientState × List Effect :=
  if st.cameraStream.isNone || st.candidateAudioStream.isNone ||
      st.assistantAudioStream.isNone then
    (st, [])
  else if st.combinedRecorder == some RecorderState.recording then
    (st, [])
  else
    let st1 := { st with combinedChunks := [], audioContextExists := true }
    let videoTrack :=
      ((st.cameraStream.getD { audioTracks := [], videoTracks := [] }).videoTracks).head?
    match videoTrack with
    | none => (st1, [])
    | some _ =>
      ({ st1 with combinedRecorder := some RecorderState.recording,
                  combinedRecordingStoppedPromise := true },
       [Effect.startRecorder])

/-- Embedding of `(Date.now() - speechStartTimestamp) / 1000` in seconds. -/
def speechDelta (now ts : Nat) : ℚ :=
  ((now : ℚ) - (ts : ℚ)) / 1000

/-- Embedding of `saveTranscriptAndAnalysis()`: a no-op when a save is already in
flight or the assembled transcript is empty; otherwise posts the
transcript and the analysis request once. -/
def saveTranscriptAndAnalysis (st : ClientState) : ClientState × List Effect :=
  if st.pendingTranscriptSave then (st, [])
  else
    let transcript := buildTranscriptFromDom st.chat.messages
    if transcript == "" then (st, [])
    else ({ st with pendingTranscriptSave := true },
          [Effect.saveTranscript, Effect.analyzeRequest])

def addSystemMessageState (st : ClientState) (text : String) : ClientState :=
  { st with chat := addSystemMessageChat st.chat text }

/-- Embedding of `stopInterview()`: clears the fail-safe timer, then bails out when
the session already ended; otherwise sets the write-once `alreadyEnded`
flag and runs the single teardown path (close channel, stop tracks and
close the connection, await the recording stop/upload, stop the
stopwatch, reset flags, finalize an open speech bracket, log the cost
summary, save the transcript, append the terminal system message). -/
def stopInterview (now : Nat) (st : ClientState) : ClientState × List Effect :=
  let st0 := { st with pendingEndTimeout := none }
  if st0.alreadyEnded then (st0, [])
  else
    let st1 := { st0 with alreadyEnded := true }
    let dcTrace := if st1.dataChannelOpen then [Effect.closeDataChannel] else []
    let st2 := { st1 with dataChannelOpen := false }
    let pcTrace :=
      if st2.peerConnectionOpen then [Effect.stopTracks, Effect.closePeerConnection] else []
    let st3 := { st2 with peerConnectionOpen := false }
    let recPair := stopCombinedRecording st3
    let st4 := recPair.1
    let st5 := { st4 with
      isSessionActive := false,
      startButtonDisabled := false,
      stopButtonDisabled := true,
      liveIndicator := "ENDED",
      hasSentGreeting := false,
      currentAssistantItemId := none,
      currentUserItemId := none,
      pendingEndInterview := false,
      outputAudioActive := false,
      lastAssistantResponseId := none }
    let st6 :=
      if st5.userSpeaking && jsTruthyNat st5.speechStartTimestamp then
        { st5 with
          speechDurationSeconds :=
            st5.speechDurationSeconds + max (speechDelta now (st5.speechStartTimestamp.getD 0)) 0,
          userSpeaking := false,
          speechStartTimestamp := none }
      else st5
    let savePair := saveTranscriptAndAnalysis st6
    let st7 := addSystemMessageState savePair.1 "Interview session ended"
    (st7, dcTrace ++ pcTrace ++ recPair.2 ++ [Effect.stopStopwatch, Effect.logCostSummary] ++
      savePair.2 ++ [Effect.addSystemMsg "Interview session ended"])

/-- Embedding of `handleEndInterviewSignal(source)`: ignored after teardown;
otherwise marks the end of interview as pending, clears any earlier
fail-safe timer and arms a fresh one with the fixed 5 second delay. -/
def handleEndInterviewSignal (now : Nat) (st : ClientState) : ClientState :=
  if st.alreadyEnded then st
  else { st with pendingEndInterview := true,
                 pendingEndTimeout := some (now + FAILSAFE_DELAY_MS) }

/-- The fail-safe timer's callback: forces `stopInterview` when the end
is still pending and the session has not ended yet. -/
def fireFailsafeTimeout (now : Nat) (st : ClientState) : ClientState × List Effect :=
  if st.pendingEndInterview && !st.alreadyEnded then stopInterview now st else (st, [])

/-- Embedding of `tokenUsage.response` accumulation for a first-seen `response.done`
usage payload (interview.js lines 691-708): cached totals fall back to
the floored remainder `cached_tokens - cachedAudio` for the text share,
and the non-cached remainders are floored at zero. -/
def applyResponseUsage (r : RespUsage) (u : UsagePayload) : RespUsage :=
  let textIn := (u.input_token_details.bind (fun d => d.text_tokens)).getD 0
  let audioIn := (u.input_token_details.bind (fun d => d.audio_tokens)).getD 0
  let textOut := (u.output_token_details.bind (fun d => d.text_tokens)).getD 0
  let audioOut := (u.output_token_details.bind (fun d => d.audio_tokens)).getD 0
  let cachedTotal := (u.input_token_details.bind (fun d => d.cached_tokens)).getD 0
  let cachedDetails := u.input_token_details.bind (fun d => d.cached_tokens_details)
  let cachedAudio := (cachedDetails.bind (fun d => d.audio_tokens)).getD 0
  let cachedText := (cachedDetails.bind (fun d => d.text_tokens)).getD
    (max (cachedTotal - cachedAudio) 0)
  let nonCachedText := max (textIn - cachedText) 0
  let nonCachedAudio := max (audioIn - cachedAudio) 0
  { r with
    cachedTextInput := r.cachedTextInput + cachedText,
    cachedAudioInput := r.cachedAudioInput + cachedAudio,
    textInput := r.textInput + nonCachedText,
    audioInput := r.audioInput + nonCachedAudio,
    textOutput := r.textOutput + textOut,
    audioOutput := r.audioOutput + audioOut }

/-- The server events this development models (the wire event types of
the cases of `handleServerEvent` the claims are about; transcript
assembly for the item/delta events is modeled directly by
`upsertMessage`/`appendToMessage` above). -/
inductive ServerEvent
  | responseDone (respId : Option String) (usage : Option UsagePayload)
      (output : Option (List OutputItem))
  | outputAudioStarted
  | outputAudioStopped
  | speechStarted
  | committed (item_id : Option String) (transcript : Option String) (text : Option String)
      (usage : Option TranscribeUsagePayload)
  | speechStopped
deriving DecidableEq, Repr

def ServerEvent.typeName : ServerEvent → String
  | .responseDone _ _ _ => "response.done"
  | .outputAudioStarted => "output_audio_buffer.started"
  | .outputAudioStopped => "output_audio_buffer.stopped"
  | .speechStarted => "input_audio_buffer.speech_started"
  | .committed _ _ _ _ => "input_audio_buffer.committed"
  | .speechStopped => "input_audio_buffer.speech_stopped"

/-- Embedding of `handleServerEvent(event)` over the modeled events: each event is
first logged to the debug event log, then dispatched. -/
def handleServerEvent (now : Nat) (ev : ServerEvent) (st : ClientState) :
    ClientState × List Effect :=
  let st := { st with evtLog := st.evtLog ++ [(now, ev.typeName)] }
  match ev with
  | .responseDone respId usage output =>
    if (respId.map (fun r => st.respUsage.seenResponseIds.contains r)).getD false then
      (st, [])
    else
      let stA :=
        match respId with
        | some r => { st with respUsage :=
            { st.respUsage with seenResponseIds := st.respUsage.seenResponseIds ++ [r] } }
        | none => st
      let stB :=
        match usage with
        | some u => { stA with respUsage := applyResponseUsage stA.respUsage u }
        | none => stA
      match output with
      | some items =>
        if (items.any (fun o => o.type == "function_call" && o.name == "end_interview"))
            && !stB.alreadyEnded then
          (handleEndInterviewSignal now stB, [])
        else (stB, [])
      | none => (stB, [])
  | .outputAudioStarted => ({ st with outputAudioActive := true }, [])
  | .outputAudioStopped =>
    let stA := { st with outputAudioActive := false }
    if stA.pendingEndInterview && !stA.alreadyEnded then stopInterview now stA
    else (stA, [])
  | .speechStarted =>
    ({ st with userSpeaking := true, speechStartTimestamp := some now }, [])
  | .committed item_id transcript text usage =>
    let tv := jsOrStr transcript text
    let stA :=
      if !((item_id.getD "") == "") && !(tv == "") then
        { st with currentUserItemId := item_id,
                  chat := upsertMessage st.chat (item_id.getD "") "user" tv }
      else if !(tv == "") then
        let tmpId := "user-" ++ toString now
        { st with currentUserItemId := some tmpId,
                  chat := upsertMessage st.chat tmpId "user" tv }
      else st
    let stB :=
      match usage with
      | some u =>
        { stA with transcriptionUsage :=
          { totalTokens := stA.transcriptionUsage.totalTokens + (u.total_tokens).getD 0,
            audioTokens := stA.transcriptionUsage.audioTokens + (u.input_audio_tokens).getD 0 } }
      | none => stA
    ({ stB with userSpeaking := false, speechStartTimestamp := none }, [])
  | .speechStopped =>
    let stA :=
      if st.userSpeaking && jsTruthyNat st.speechStartTimestamp then
        { st with speechDurationSeconds :=
            st.speechDurationSeconds + max (speechDelta now (st.speechStartTimestamp.getD 0)) 0 }
      else st
    ({ stA with speechStartTimestamp := none, userSpeaking := false }, [])

/-- The module-level state as initialized at page load (with a loaded
session identifier). -/
def initialClientState : ClientState :=
  { alreadyEnded := false, pendingEndInterview := false, outputAudioActive := false,
    pendingEndTimeout := none, isSessionActive := false, hasSentGreeting := false,
    liveIndicator := "READY", startButtonDisabled := false, stopButtonDisabled := true,
    dataChannelOpen := false, peerConnectionOpen := false,
    userSpeaking := false, speechStartTimestamp := none, speechDurationSeconds := 0,
    lastAssistantResponseId := none, currentAssistantItemId := none,
    currentUserItemId := none,
    respUsage := { textInput := 0, audioInput := 0, textOutput := 0, audioOutput := 0,
                   cachedTextInput := 0, cachedAudioInput := 0, seenResponseIds := [] },
    transcriptionUsage := { totalTokens := 0, audioTokens := 0 },
    chat := emptyChat,
    cameraStream := none, candidateAudioStream := none, assistantAudioStream := none,
    audioContextExists := false, combinedRecorder := none, combinedChunks := [],
    combinedRecordingStoppedPromise := false, pendingTranscriptSave := false,
    interviewSessionId := "session-1", evtLog := [] }

-- ### Transport negotiator

/-- An HTTP response as the client observes it. -/
structure HttpResponse where
  ok : Bool
  status : Nat
  body : String
deriving DecidableEq, Repr

/-- The parsed JSON body of the `/token` endpoint:
`data?.client_secret?.value` and `data?.value`. -/
structure TokenPayload where
  client_secret_value : Option String
  value : Option String
deriving DecidableEq, Repr

/-- The network environment a negotiation attempt runs against: the
responses each endpoint would give. -/
structure NegotiationEnv where
  serverSession : HttpResponse
  tokenResp : HttpResponse
  tokenPayload : TokenPayload
  directCall : HttpResponse
  azureSession : HttpResponse
deriving DecidableEq, Repr

/-- The HTTP requests a negotiation attempt issues, in order. -/
inductive NegRequest
  | serverNegotiate
  | tokenFetch
  | directNegotiate
  | azureNegotiate
deriving DecidableEq, Repr

/-- Embedding of `negotiateWithServer(sdp)`: POST to the server relay; a non-ok
response throws with the status and body. -/
def negotiateWithServer (env : NegotiationEnv) : Except String String :=
  if env.serverSession.ok then Except.ok env.serverSession.body
  else Except.error ("Server negotiation failed (" ++ toString env.serverSession.status ++
    "): " ++ env.serverSession.body)

/-- Embedding of `negotiateDirectly(sdp)`: fetch an ephemeral token, extract the
client secret, then POST the offer straight to the provider; a non-ok
provider response throws with its body (or a fixed message when the body
is empty). -/
def negotiateDirectly (env : NegotiationEnv) : Except String String × List NegRequest :=
  if !env.tokenResp.ok then
    (Except.error "Failed to fetch ephemeral token", [NegRequest.tokenFetch])
  else
    let key := jsOrStr env.tokenPayload.client_secret_value env.tokenPayload.value
    if key == "" then
      (Except.error "Token response missing client secret", [NegRequest.tokenFetch])
    else if env.directCall.ok then
      (Except.ok env.directCall.body, [NegRequest.tokenFetch, NegRequest.directNegotiate])
    else
      (Except.error
        (if env.directCall.body == "" then "Realtime API negotiation failed"
         else env.directCall.body),
       [NegRequest.tokenFetch, NegRequest.directNegotiate])

/-- Embedding of `getSdpAnswer(sdp)`: the Azure path when enabled; otherwise the
server relay first, falling back to direct negotiation on any error. -/
def getSdpAnswer (env : NegotiationEnv) (useAzureRealtime : Bool) :
    Except String String × List NegRequest :=
  if useAzureRealtime then
    (if env.azureSession.ok then Except.ok env.azureSession.body
     else Except.error ("Azure negotiation failed: " ++ env.azureSession.body),
     [NegRequest.azureNegotiate])
  else
    match negotiateWithServer env with
    | Except.ok answer => (Except.ok answer, [NegRequest.serverNegotiate])
    | Except.error _ =>
      let p := negotiateDirectly env
      (p.1, NegRequest.serverNegotiate :: p.2)

/-- Embedding of `showError(message)`: appends an error line to the chat and flips
the live indicator. -/
def showErrorState (st : ClientState) (message : String) : ClientState :=
  let st1 := addSystemMessageState st ("Error: " ++ message)
  { st1 with liveIndicator := "ERROR" }

/-- The `catch` block of `startInterview()`: surfaces the error and
re-enables the start control. -/
def startInterviewCatch (st : ClientState) (errMessage : String) : ClientState × List Effect :=
  let st1 := showErrorState st ("Failed to start interview: " ++ errMessage)
  ({ st1 with startButtonDisabled := false, liveIndicator := "READY",
              hasSentGreeting := false },
   [Effect.showErrorMsg ("Failed to start interview: " ++ errMessage)])

theorem stopInterview_ended_noop (now : Nat) (st : ClientState) (h : st.alreadyEnded = true) :
    stopInterview now st = ({ st with pendingEndTimeout := none }, []) := by
  simp [stopInterview, h]

theorem eq_of_timeout_none (st : ClientState) (h : st.pendingEndTimeout = none) :
    ({ st with pendingEndTimeout := none } : ClientState) = st := by
  cases st
  simp_all

theorem stopInterview_fields (now : Nat) (st : ClientState) (h : st.alreadyEnded = false) :
    (stopInterview now st).1.alreadyEnded = true ∧
    (stopInterview now st).1.pendingEndTimeout = none ∧
    (stopInterview now st).1.liveIndicator = "ENDED" ∧
    (stopInterview now st).1.pendingEndInterview = false := by
  simp only [stopInterview, h, Bool.false_eq_true, if_false]
  unfold stopCombinedRecording saveTranscriptAndAnalysis addSystemMessageState addSystemMessageChat
  split_ifs <;> simp_all [apply_ite]

theorem stopInterview_timeout_none (now : Nat) (st : ClientState) :
    (stopInterview now st).1.pendingEndTimeout = none := by
  by_cases h : st.alreadyEnded = true
  · rw [stopInterview_ended_noop now st h]
  · exact (stopInterview_fields now st (by simpa using h)).2.1

theorem stopCombinedRecording_trace_counts (st : ClientState) :
    ((stopCombinedRecording st).2.count Effect.logCostSummary = 0) ∧
    ((stopCombinedRecording st).2.count (Effect.uploadFetch "combined") ≤ 1) := by
  unfold stopCombinedRecording combinedOnStopTrace uploadMedia
  split_ifs <;> simp_all [List.count_append, List.count_cons, List.count_nil]

theorem saveTranscriptAndAnalysis_trace_counts (st : ClientState) :
    ((saveTranscriptAndAnalysis st).2.count Effect.logCostSummary = 0) ∧
    ((saveTranscriptAndAnalysis st).2.count (Effect.uploadFetch "combined") = 0) := by
  unfold saveTranscriptAndAnalysis
  by_cases h1 : st.pendingTranscriptSave = true <;>
    by_cases h2 : buildTranscriptFromDom st.chat.messages = "" <;>
      simp [h1, h2, List.count_cons]

theorem stopInterview_trace_counts (now : Nat) (st : ClientState)
    (h : st.alreadyEnded = false) :
    ((stopInterview now st).2.count Effect.logCostSummary = 1) ∧
    ((stopInterview now st).2.count (Effect.uploadFetch "combined") ≤ 1) := by
  simp only [stopInterview, h, Bool.false_eq_true, if_false]
  have hrec := stopCombinedRecording_trace_counts
  have hsave := saveTranscriptAndAnalysis_trace_counts
  constructor
  · simp only [List.count_append, (hrec _).1, (hsave _).1]
    split_ifs <;> simp [List.count_cons, List.count_nil]
  · simp only [List.count_append]
    have h1 := (hrec ({ st with
      pendingEndTimeout := none, alreadyEnded := true, dataChannelOpen := false,
      peerConnectionOpen := false } : ClientState)).2
    split_ifs <;>
      simp_all [List.count_cons, List.count_nil, List.count_append]

theorem handleEndInterviewSignal_ended (now : Nat) (st : ClientState)
    (h : st.alreadyEnded = true) : handleEndInterviewSignal now st = st := by
  simp [handleEndInterviewSignal, h]

theorem handleEndInterviewSignal_alreadyEnded (now : Nat) (st : ClientState) :
    (handleEndInterviewSignal now st).alreadyEnded = st.alreadyEnded := by
  unfold handleEndInterviewSignal
  split <;> rfl

theorem handleServerEvent_preserves_ended (now : Nat) (ev : ServerEvent) (st : ClientState)
    (h : st.alreadyEnded = true) :
    (handleServerEvent now ev st).1.alreadyEnded = true := by
  cases ev with
  | responseDone respId usage output =>
    simp only [handleServerEvent]
    split
    · simp [h]
    · cases respId <;> cases usage <;> cases output <;>
        simp_all [handleEndInterviewSignal, applyResponseUsage]
  | outputAudioStarted => simp [handleServerEvent, h]
  | outputAudioStopped => simp [handleServerEvent, h]
  | speechStarted => simp [handleServerEvent, h]
  | committed item_id transcript text usage =>
    simp only [handleServerEvent]
    cases usage <;> split_ifs <;> simp_all
  | speechStopped =>
    simp only [handleServerEvent]
    split_ifs <;> simp_all

/-- C1: with the end of interview pending and the session not yet ended,
an `output_audio_buffer.stopped` event triggers teardown exactly once
(the session reaches `ENDED`, the cost summary fires once, the upload at
most once), and a subsequent stop request is a no-op fenced by the
write-once `alreadyEnded` flag: it changes nothing and emits no teardown
side effect, a later playback-stopped event emits nothing either, and no
modeled event ever resets `alreadyEnded`. -/
theorem pendingEnd_stop_teardown_once (st : ClientState) (now now2 now3 : Nat)
    (h1 : st.pendingEndInterview = true) (h2 : st.alreadyEnded = false) :
    ((handleServerEvent now ServerEvent.outputAudioStopped st).1.alreadyEnded = true) ∧
    ((handleServerEvent now ServerEvent.outputAudioStopped st).1.liveIndicator = "ENDED") ∧
    ((handleServerEvent now ServerEvent.outputAudioStopped st).2.count
        Effect.logCostSummary = 1) ∧
    ((handleServerEvent now ServerEvent.outputAudioStopped st).2.count
        (Effect.uploadFetch "combined") ≤ 1) ∧
    (stopInterview now2 (handleServerEvent now ServerEvent.outputAudioStopped st).1 =
      ((handleServerEvent now ServerEvent.outputAudioStopped st).1, [])) ∧
    ((handleServerEvent now3 ServerEvent.outputAudioStopped
        (handleServerEvent now ServerEvent.outputAudioStopped st).1).2 = []) ∧
    (∀ (ev : ServerEvent) (now4 : Nat),
      (handleServerEvent now4 ev
        (handleServerEvent now ServerEvent.outputAudioStopped st).1).1.alreadyEnded = true) := by
  have hred : handleServerEvent now ServerEvent.outputAudioStopped st =
      stopInterview now { st with
        evtLog := st.evtLog ++ [(now, "output_audio_buffer.stopped")],
        outputAudioActive := false } := by
    simp [handleServerEvent, ServerEvent.typeName, h1, h2]
  have hX : ({ st with
      evtLog := st.evtLog ++ [(now, "output_audio_buffer.stopped")],
      outputAudioActive := false } : ClientState).alreadyEnded = false := h2
  have hfields := stopInterview_fields now _ hX
  have hcounts := stopInterview_trace_counts now _ hX
  rw [hred]
  have hEnded : (stopInterview now { st with
      evtLog := st.evtLog ++ [(now, "output_audio_buffer.stopped")],
      outputAudioActive := false } : ClientState × List Effect).1.alreadyEnded = true :=
    hfields.1
  refine ⟨hfields.1, hfields.2.2.1, hcounts.1, hcounts.2, ?_, ?_, ?_⟩
  · rw [stopInterview_ended_noop now2 _ hEnded, eq_of_timeout_none _ hfields.2.1]
  · simp [handleServerEvent, hEnded]
  · intro ev now4
    exact handleServerEvent_preserves_ended now4 ev _ hEnded

/-- Witness for C1: a live session with a pending end signal. -/
theorem pendingEnd_stop_teardown_once_witness :
    (({ initialClientState with pendingEndInterview := true } :
        ClientState).pendingEndInterview = true ∧
      ({ initialClientState with pendingEndInterview := true } :
        ClientState).alreadyEnded = false) ∧
    ((handleServerEvent 7 ServerEvent.outputAudioStopped
        { initialClientState with pendingEndInterview := true }).1.alreadyEnded = true) := by
  refine ⟨⟨rfl, rfl⟩, ?_⟩
  exact (pendingEnd_stop_teardown_once
    { initialClientState with pendingEndInterview := true } 7 8 9 rfl rfl).1

/-- C2: when the end signal is handled in a not-yet-ended session, the
end becomes pending and the fail-safe timer is armed with the fixed
5-second delay; firing the timer in any state where the end is still
pending and the session has not ended forces teardown to `ENDED`; and
every `stopInterview` call cancels the timer. -/
theorem failsafe_timer_armed_fires_canceled (st : ClientState) (now : Nat)
    (h : st.alreadyEnded = false) :
    ((handleEndInterviewSignal now st).pendingEndInterview = true) ∧
    ((handleEndInterviewSignal now st).pendingEndTimeout = some (now + FAILSAFE_DELAY_MS)) ∧
    (FAILSAFE_DELAY_MS = 5000) ∧
    (∀ (st2 : ClientState) (now2 : Nat),
      st2.pendingEndInterview = true → st2.alreadyEnded = false →
      ((fireFailsafeTimeout now2 st2).1.alreadyEnded = true ∧
        (fireFailsafeTimeout now2 st2).1.liveIndicator = "ENDED")) ∧
    (∀ (st3 : ClientState) (now3 : Nat), (stopInterview now3 st3).1.pendingEndTimeout = none) := by
  refine ⟨?_, ?_, rfl, ?_, ?_⟩
  · simp [handleEndInterviewSignal, h]
  · simp [handleEndInterviewSignal, h]
  · intro st2 now2 hp he
    have : fireFailsafeTimeout now2 st2 = stopInterview now2 st2 := by
      simp [fireFailsafeTimeout, hp, he]
    rw [this]
    exact ⟨(stopInterview_fields now2 st2 he).1, (stopInterview_fields now2 st2 he).2.2.1⟩
  · intro st3 now3
    exact stopInterview_timeout_none now3 st3

/-- Witness for C2: the end signal handled in the freshly started state. -/
theorem failsafe_timer_armed_fires_canceled_witness :
    (initialClientState.alreadyEnded = false) ∧
    ((handleEndInterviewSignal 11 initialClientState).pendingEndTimeout = some (11 + 5000)) := by
  refine ⟨rfl, ?_⟩
  exact (failsafe_timer_armed_fires_canceled initialClientState 11 rfl).2.1

/-- C4: a `response.done` event whose response identifier is already in
the seen set leaves the whole Usage Ledger response record (all six
counters and the dedupe set) unchanged and performs nothing else. -/
theorem recordResponseUsage_idempotent (st : ClientState) (now : Nat) (r : String)
    (usage : Option UsagePayload) (output : Option (List OutputItem))
    (h : st.respUsage.seenResponseIds.contains r = true) :
    ((handleServerEvent now (ServerEvent.responseDone (some r) usage output) st).1.respUsage =
      st.respUsage) ∧
    ((handleServerEvent now (ServerEvent.responseDone (some r) usage output) st).2 = []) := by
  have hm : r ∈ st.respUsage.seenResponseIds := by simpa using h
  constructor <;> simp [handleServerEvent, hm]

/-- Witness for C4: a duplicate of an already-counted response. -/
theorem recordResponseUsage_idempotent_witness :
    (({ initialClientState with respUsage :=
        { initialClientState.respUsage with seenResponseIds := ["resp-1"] } } :
        ClientState).respUsage.seenResponseIds.contains "resp-1" = true) ∧
    ((handleServerEvent 3 (ServerEvent.responseDone (some "resp-1") none none)
        { initialClientState with respUsage :=
          { initialClientState.respUsage with seenResponseIds := ["resp-1"] } }).1.respUsage =
      ({ initialClientState with respUsage :=
        { initialClientState.respUsage with seenResponseIds := ["resp-1"] } } :
        ClientState).respUsage) := by
  refine ⟨by decide, ?_⟩
  exact (recordResponseUsage_idempotent _ 3 "resp-1" none none (by decide)).1

theorem handleEndInterviewSignal_respUsage (now : Nat) (st : ClientState) :
    (handleEndInterviewSignal now st).respUsage = st.respUsage := by
  unfold handleEndInterviewSignal
  split <;> rfl

/-- A first-seen `response.done` with a usage payload: the ledger is the
accumulation of that payload on top of the ledger extended by the new
identifier. -/
theorem handleServerEvent_responseDone_usage (now : Nat) (st : ClientState) (r : String)
    (u : UsagePayload) (output : Option (List OutputItem))
    (h : st.respUsage.seenResponseIds.contains r = false) :
    (handleServerEvent now (ServerEvent.responseDone (some r) (some u) output) st).1.respUsage =
      applyResponseUsage
        { st.respUsage with seenResponseIds := st.respUsage.seenResponseIds ++ [r] } u := by
  simp only [handleServerEvent]
  have hm : r ∉ st.respUsage.seenResponseIds := by simpa using h
  have hneg : ¬ ((Option.map (fun x => st.respUsage.seenResponseIds.contains x)
      (some r)).getD false = true) := by
    simp [hm]
  rw [if_neg hneg]
  cases output with
  | none => rfl
  | some items =>
    dsimp only
    split
    · rw [handleEndInterviewSignal_respUsage]
    · rfl

/-- The usage of the C5 counterexample: ten input text tokens, a cached
total of ten, and no cached text/audio breakdown. -/
def c5Usage : UsagePayload :=
  { input_token_details := some
      { text_tokens := some 10, audio_tokens := some 0,
        cached_tokens := some 10, cached_tokens_details := none },
    output_token_details := none }

/-- Counterexample to C5 as stated: on a first-seen `response.done`
carrying only a total cached count (no text/audio split), the code
attributes the whole cached count to the cached TEXT bucket, not to the
audio (non-text) bucket the claim names: the cached audio counter stays
`0` instead of becoming `10`. -/
theorem cached_split_counterexample :
    ((handleServerEvent 0 (ServerEvent.responseDone (some "resp-1") (some c5Usage) none)
        initialClientState).1.respUsage.cachedAudioInput = 0) ∧
    ((handleServerEvent 0 (ServerEvent.responseDone (some "resp-1") (some c5Usage) none)
        initialClientState).1.respUsage.cachedTextInput = 10) ∧
    ¬ ((handleServerEvent 0 (ServerEvent.responseDone (some "resp-1") (some c5Usage) none)
        initialClientState).1.respUsage.cachedAudioInput = 10) := by
  refine ⟨by decide, by decide, by decide⟩

/-- C5 amended: on a first-seen `response.done`, the cached split is
taken from the provider's breakdown when present; when only a total
cached count is given with no text/audio split, the entire cached count
is treated as TEXT cache (the audio cache bucket is unchanged); and the
non-cached remainders never decrease a counter (floored at zero). -/
theorem cached_split_amended (st : ClientState) (now : Nat) (r : String) (u : UsagePayload)
    (output : Option (List OutputItem))
    (h : st.respUsage.seenResponseIds.contains r = false) :
    (∀ itd cd ct ca, u.input_token_details = some itd →
      itd.cached_tokens_details = some cd → cd.text_tokens = some ct →
      cd.audio_tokens = some ca →
      ((handleServerEvent now (ServerEvent.responseDone (some r) (some u) output)
          st).1.respUsage.cachedTextInput = st.respUsage.cachedTextInput + ct ∧
        (handleServerEvent now (ServerEvent.responseDone (some r) (some u) output)
          st).1.respUsage.cachedAudioInput = st.respUsage.cachedAudioInput + ca)) ∧
    (∀ itd c, u.input_token_details = some itd → itd.cached_tokens_details = none →
      itd.cached_tokens = some c →
      ((handleServerEvent now (ServerEvent.responseDone (some r) (some u) output)
          st).1.respUsage.cachedTextInput = st.respUsage.cachedTextInput + max c 0 ∧
        (handleServerEvent now (ServerEvent.responseDone (some r) (some u) output)
          st).1.respUsage.cachedAudioInput = st.respUsage.cachedAudioInput)) ∧
    (st.respUsage.textInput ≤
      (handleServerEvent now (ServerEvent.responseDone (some r) (some u) output)
        st).1.respUsage.textInput ∧
      st.respUsage.audioInput ≤
      (handleServerEvent now (ServerEvent.responseDone (some r) (some u) output)
        st).1.respUsage.audioInput) := by
  rw [handleServerEvent_responseDone_usage now st r u output h]
  refine ⟨?_, ?_, ?_⟩
  · intro itd cd ct ca h1 h2 h3 h4
    constructor <;> simp [applyResponseUsage, h1, h2, h3, h4]
  · intro itd c h1 h2 h3
    constructor <;> simp [applyResponseUsage, h1, h2, h3]
  · constructor <;>
      exact le_add_of_nonneg_right (le_max_right _ _)

/-- Witness for C5's amended theorem at the counterexample input. -/
theorem cached_split_amended_witness :
    (initialClientState.respUsage.seenResponseIds.contains "resp-1" = false) ∧
    ((handleServerEvent 0 (ServerEvent.responseDone (some "resp-1") (some c5Usage) none)
        initialClientState).1.respUsage.cachedTextInput =
      initialClientState.respUsage.cachedTextInput + max 10 0) := by
  refine ⟨by decide, ?_⟩
  exact ((cached_split_amended initialClientState 0 "resp-1" c5Usage none (by decide)).2.1
    { text_tokens := some 10, audio_tokens := some 0,
      cached_tokens := some 10, cached_tokens_details := none } 10 rfl rfl rfl).1

theorem stopInterview_credits_speech (now : Nat) (st : ClientState) (t : Nat)
    (hE : st.alreadyEnded = false) (hU : st.userSpeaking = true)
    (hT : st.speechStartTimestamp = some t) (ht : t ≠ 0) :
    (stopInterview now st).1.speechDurationSeconds =
      st.speechDurationSeconds + max (speechDelta now t) 0 := by
  simp only [stopInterview, hE, Bool.false_eq_true, if_false]
  unfold stopCombinedRecording saveTranscriptAndAnalysis addSystemMessageState addSystemMessageChat
  split_ifs <;> simp_all [jsTruthyNat, apply_ite]

/-- C10: an `input_audio_buffer.committed` event processed while a user
speech bracket is open clears the bracket without crediting the elapsed
time (the cumulative speech seconds are unchanged); the credit happens
only on `input_audio_buffer.speech_stopped` or at session teardown,
which both add the elapsed bracket duration. -/
theorem committed_clears_bracket_without_credit (st : ClientState) (now : Nat) (t : Nat)
    (item_id transcript text : Option String) (usage : Option TranscribeUsagePayload)
    (hU : st.userSpeaking = true) (hT : st.speechStartTimestamp = some t) (ht : t ≠ 0)
    (hE : st.alreadyEnded = false) :
    ((handleServerEvent now (ServerEvent.committed item_id transcript text usage)
        st).1.userSpeaking = false) ∧
    ((handleServerEvent now (ServerEvent.committed item_id transcript text usage)
        st).1.speechStartTimestamp = none) ∧
    ((handleServerEvent now (ServerEvent.committed item_id transcript text usage)
        st).1.speechDurationSeconds = st.speechDurationSeconds) ∧
    ((handleServerEvent now ServerEvent.speechStopped st).1.speechDurationSeconds =
      st.speechDurationSeconds + max (speechDelta now t) 0) ∧
    ((stopInterview now st).1.speechDurationSeconds =
      st.speechDurationSeconds + max (speechDelta now t) 0) := by
  refine ⟨?_, ?_, ?_, ?_, ?_⟩
  · simp only [handleServerEvent]
  · simp only [handleServerEvent]
  · simp only [handleServerEvent]
    cases usage <;> split_ifs <;> simp_all
  · simp [handleServerEvent, hU, hT, jsTruthyNat, ht]
  · exact stopInterview_credits_speech now st t hE hU hT ht

/-- A session state with an open user speech bracket. -/
def openBracketState : ClientState :=
  { initialClientState with userSpeaking := true, speechStartTimestamp := some 1000 }

/-- Witness for C10 at a concrete open-bracket state. -/
theorem committed_clears_bracket_without_credit_witness :
    (openBracketState.userSpeaking = true ∧
      openBracketState.speechStartTimestamp = some 1000 ∧
      openBracketState.alreadyEnded = false) ∧
    ((handleServerEvent 4000 (ServerEvent.committed none none none none)
        openBracketState).1.speechDurationSeconds =
      openBracketState.speechDurationSeconds) := by
  refine ⟨⟨rfl, rfl, rfl⟩, ?_⟩
  exact (committed_clears_bracket_without_credit openBracketState
    4000 1000 none none none none rfl rfl (by decide) rfl).2.2.1

/-- C6: the recording-start operation is a no-op (state and effects)
whenever any of the three source streams is missing or a recording is
already active; in particular recording never starts with fewer than
three source streams present. -/
theorem tryStartCombinedRecording_guard (st : ClientState)
    (h : st.cameraStream = none ∨ st.candidateAudioStream = none ∨
        st.assistantAudioStream = none ∨ st.combinedRecorder = some RecorderState.recording) :
    tryStartCombinedRecording st = (st, []) := by
  unfold tryStartCombinedRecording
  rcases h with h | h | h | h
  · simp [h]
  · simp [h]
  · simp [h]
  · split
    · rfl
    · simp [h]

/-- Witness for C6: only the camera stream is present. -/
theorem tryStartCombinedRecording_guard_witness :
    (({ initialClientState with
        cameraStream := some { audioTracks := [], videoTracks := [5] } } :
        ClientState).candidateAudioStream = none) ∧
    (tryStartCombinedRecording { initialClientState with
        cameraStream := some { audioTracks := [], videoTracks := [5] } } =
      ({ initialClientState with
        cameraStream := some { audioTracks := [], videoTracks := [5] } }, [])) := by
  refine ⟨rfl, ?_⟩
  exact tryStartCombinedRecording_guard _ (Or.inr (Or.inl rfl))

theorem stopCombinedRecording_trace (st : ClientState)
    (h1 : st.combinedRecorder = some RecorderState.recording)
    (h2 : st.combinedRecordingStoppedPromise = true)
    (h3 : st.combinedChunks ≠ [])
    (h4 : st.interviewSessionId ≠ "") :
    (stopCombinedRecording st).2 =
      [Effect.recorderStop, Effect.assembleBlob, Effect.uploadFetch "combined",
        Effect.resolveStopPromise] := by
  have hlen : st.combinedChunks.length > 0 := List.length_pos.mpr h3
  simp [stopCombinedRecording, combinedOnStopTrace, uploadMedia, h1, h2, hlen, h4]

/-- C7: stopping an active recording emits, in order, the recorder stop,
the assembly of the captured chunks into one blob, the upload attempt,
and only then the resolution of the stop promise; and the awaited
teardown path orders that whole sequence before the stopwatch stop,
cost summary and the rest of the close-out. -/
theorem stopRecording_upload_before_resolve (st : ClientState) (now : Nat)
    (h1 : st.combinedRecorder = some RecorderState.recording)
    (h2 : st.combinedRecordingStoppedPromise = true)
    (h3 : st.combinedChunks ≠ [])
    (h4 : st.interviewSessionId ≠ "")
    (h5 : st.alreadyEnded = false) :
    ((stopCombinedRecording st).2 =
      [Effect.recorderStop, Effect.assembleBlob, Effect.uploadFetch "combined",
        Effect.resolveStopPromise]) ∧
    (∃ l2, (stopInterview now st).2 =
      (if st.dataChannelOpen then [Effect.closeDataChannel] else []) ++
      (if st.peerConnectionOpen then [Effect.stopTracks, Effect.closePeerConnection] else []) ++
      [Effect.recorderStop, Effect.assembleBlob, Effect.uploadFetch "combined",
        Effect.resolveStopPromise] ++
      Effect.stopStopwatch :: Effect.logCostSummary :: l2) := by
  refine ⟨stopCombinedRecording_trace st h1 h2 h3 h4, ?_⟩
  have hlen : 0 < st.combinedChunks.length := List.length_pos.mpr h3
  have hsid : (st.interviewSessionId == "") = false := by simp [h4]
  have hrec : (st.combinedRecorder == some RecorderState.recording) = true := by simp [h1]
  simp only [stopInterview, h5, Bool.false_eq_true, if_false, stopCombinedRecording,
    combinedOnStopTrace, uploadMedia, hrec, h2, hsid, hlen, if_true, Bool.false_eq_true,
    Bool.not_false, List.append_assoc, List.cons_append, List.nil_append, gt_iff_lt,
    Bool.or_false]
  exact ⟨_, rfl⟩

/-- A session state with an active combined recording and one chunk. -/
def activeRecordingState : ClientState :=
  { initialClientState with
    combinedRecorder := some RecorderState.recording,
    combinedRecordingStoppedPromise := true, combinedChunks := [42] }

/-- Witness for C7: an active recording with one captured chunk. -/
theorem stopRecording_upload_before_resolve_witness :
    (activeRecordingState.combinedChunks ≠ [] ∧
      activeRecordingState.interviewSessionId ≠ "") ∧
    ((stopCombinedRecording activeRecordingState).2 =
      [Effect.recorderStop, Effect.assembleBlob, Effect.uploadFetch "combined",
        Effect.resolveStopPromise]) := by
  refine ⟨⟨by decide, by decide⟩, ?_⟩
  exact (stopRecording_upload_before_resolve activeRecordingState
    0 rfl rfl (by decide) (by decide) rfl).1

/-- A network environment where the relay fails and the fallback's token
fetch also fails (with its own status and body). -/
def negEnvTokenFail : NegotiationEnv :=
  { serverSession := { ok := false, status := 502, body := "relay down" },
    tokenResp := { ok := false, status := 503, body := "busy" },
    tokenPayload := { client_secret_value := none, value := none },
    directCall := { ok := false, status := 500, body := "boom" },
    azureSession := { ok := true, status := 200, body := "v=0" } }

/-- A network environment where the relay fails and the direct provider
call fails with status 500 and body `boom`. -/
def negEnvDirectFail : NegotiationEnv :=
  { serverSession := { ok := false, status := 502, body := "relay down" },
    tokenResp := { ok := true, status := 200, body := "tok" },
    tokenPayload := { client_secret_value := some "ek_test", value := none },
    directCall := { ok := false, status := 500, body := "boom" },
    azureSession := { ok := true, status := 200, body := "v=0" } }

/-- Counterexample to C9 as stated: when both paths fail, the error does
not carry the last HTTP status/body. With the token fetch as the last
failure (status 503, body `busy`) the error is the fixed message
`Failed to fetch ephemeral token`, containing neither the status nor the
body; and even when the direct call is the last failure (status 500,
body `boom`) the error message is just the body, with no status. -/
theorem negotiation_error_counterexample :
    ((getSdpAnswer negEnvTokenFail false).1 =
      Except.error "Failed to fetch ephemeral token") ∧
    (¬ ("503".toList <:+: "Failed to fetch ephemeral token".toList)) ∧
    (¬ ("busy".toList <:+: "Failed to fetch ephemeral token".toList)) ∧
    ((getSdpAnswer negEnvDirectFail false).1 = Except.error "boom") ∧
    (¬ ("500".toList <:+: "boom".toList)) := by
  refine ⟨rfl, by decide, by decide, rfl, by decide⟩

/-- C9 amended: in the default mode, when the primary server-relay path
fails exactly one fallback is tried (one token fetch, at most one direct
provider call, no second relay attempt and no retry); if both paths fail
negotiation fails with an error, whose message is the direct call's
response body when that call is the last failure and its body is
non-empty (the HTTP status is never included; a token-fetch failure
yields a fixed message); and the orchestrator's catch block surfaces the
failure as a user-visible error and re-enables the start control. -/
theorem negotiation_fallback_amended (env : NegotiationEnv) (st : ClientState) (msg : String)
    (h : env.serverSession.ok = false) :
    ((getSdpAnswer env false).2.count NegRequest.serverNegotiate = 1) ∧
    ((getSdpAnswer env false).2.count NegRequest.tokenFetch = 1) ∧
    ((getSdpAnswer env false).2.count NegRequest.directNegotiate ≤ 1) ∧
    (env.directCall.ok = false → ∃ e, (getSdpAnswer env false).1 = Except.error e) ∧
    (env.tokenResp.ok = true →
      jsOrStr env.tokenPayload.client_secret_value env.tokenPayload.value ≠ "" →
      env.directCall.ok = false → env.directCall.body ≠ "" →
      (getSdpAnswer env false).1 = Except.error env.directCall.body) ∧
    ((startInterviewCatch st msg).1.startButtonDisabled = false ∧
      (startInterviewCatch st msg).1.liveIndicator = "READY" ∧
      (startInterviewCatch st msg).2 =
        [Effect.showErrorMsg ("Failed to start interview: " ++ msg)]) := by
  have hsrv : getSdpAnswer env false =
      ((negotiateDirectly env).1, NegRequest.serverNegotiate :: (negotiateDirectly env).2) := by
    simp [getSdpAnswer, negotiateWithServer, h]
  rw [hsrv]
  refine ⟨?_, ?_, ?_, ?_, ?_, ?_, rfl, rfl⟩
  · unfold negotiateDirectly
    by_cases h1 : env.tokenResp.ok = true <;>
      by_cases h2 : jsOrStr env.tokenPayload.client_secret_value env.tokenPayload.value = "" <;>
        by_cases h3 : env.directCall.ok = true <;>
          by_cases h4 : env.directCall.body = "" <;>
            simp [h1, h2, h3, h4, List.count_cons]
  · unfold negotiateDirectly
    by_cases h1 : env.tokenResp.ok = true <;>
      by_cases h2 : jsOrStr env.tokenPayload.client_secret_value env.tokenPayload.value = "" <;>
        by_cases h3 : env.directCall.ok = true <;>
          by_cases h4 : env.directCall.body = "" <;>
            simp [h1, h2, h3, h4, List.count_cons]
  · unfold negotiateDirectly
    by_cases h1 : env.tokenResp.ok = true <;>
      by_cases h2 : jsOrStr env.tokenPayload.client_secret_value env.tokenPayload.value = "" <;>
        by_cases h3 : env.directCall.ok = true <;>
          by_cases h4 : env.directCall.body = "" <;>
            simp [h1, h2, h3, h4, List.count_cons]
  · intro hd
    unfold negotiateDirectly
    by_cases h1 : env.tokenResp.ok = true <;>
      by_cases h2 : jsOrStr env.tokenPayload.client_secret_value env.tokenPayload.value = "" <;>
        by_cases h4 : env.directCall.body = "" <;>
          simp [h1, h2, hd, h4]
  · intro ht hk hd hb
    have htb : (!env.tokenResp.ok) = false := by simp [ht]
    have hkb : (jsOrStr env.tokenPayload.client_secret_value env.tokenPayload.value
        == "") = false := by simp [hk]
    have hbb : (env.directCall.body == "") = false := by simp [hb]
    simp [negotiateDirectly, htb, hkb, hd, hbb]
  · rfl

/-- Witness for C9's amended theorem at the direct-failure environment. -/
theorem negotiation_fallback_amended_witness :
    (negEnvDirectFail.serverSession.ok = false) ∧
    ((getSdpAnswer negEnvDirectFail false).2.count NegRequest.serverNegotiate = 1) ∧
    ((getSdpAnswer negEnvDirectFail false).1 =
      Except.error negEnvDirectFail.directCall.body) := by
  refine ⟨rfl, ?_, ?_⟩
  · exact (negotiation_fallback_amended negEnvDirectFail initialClientState "m" rfl).1
  · exact (negotiation_fallback_amended negEnvDirectFail initialClientState "m"
      rfl).2.2.2.2.1 rfl (by decide) rfl (by decide)
